import Mathlib

/-!
Verification of the SupermarketAppMVC order-settlement engine against its
specification.  The JavaScript source is shallowly embedded: JS `Number`
monetary values become `ℚ` (every representable value is finite, so the
`Number.isFinite` guards of the source are vacuously true here and noted at
each definition), cart/stock quantities become `ℤ`, SQL tables become lists of
row structures inside a `Db` record, and each MySQL transaction becomes a pure
function `Db → Except String (Db × result)` whose `.error` outcome models
`ROLLBACK` (the caller keeps the pre-transaction database, see `resultDb`).
Table primary keys (`products.id`, `users.id`, `payments.id`) are unique in
any real database, so row lookup and `UPDATE ... WHERE id = ?` are embedded as
first-match recursion over the row list.
-/

namespace Supermarket

/-- Two-decimal rounding, the embedding of `Number(x.toFixed(2))` from the
source (ties rounded up; the source's double rounding differs from this only
on ties below 1/200 of a cent, which no claim exercises). -/
def round2 (q : ℚ) : ℚ := ((q * 100 + 1 / 2).floor : ℚ) / 100

/-- Embedding of JavaScript `Math.round` (round half toward positive
infinity), used by the Stripe handlers to turn dollars into cents. -/
def jsRound (q : ℚ) : ℤ := (q + 1 / 2).floor

/-- One cart line as passed to the order models: `{productId, productName,
quantity, price}`. -/
structure CartItem where
  productId : ℕ
  productName : String
  quantity : ℤ
  price : ℚ
  deriving Repr, DecidableEq

/-- A row of the `products` table (only the columns the settlement engine
touches). -/
structure ProductRow where
  id : ℕ
  qty : ℤ
  deriving Repr, DecidableEq

/-- A row of the `orders` table. -/
structure OrderRow where
  id : ℕ
  userId : ℕ
  total : ℚ
  deliveryMethod : String
  deliveryAddress : Option String
  deliveryFee : ℚ
  deriving Repr, DecidableEq

/-- A row of the `order_items` table. -/
structure OrderItemRow where
  orderId : ℕ
  productId : ℕ
  quantity : ℤ
  price : ℚ
  deriving Repr, DecidableEq

/-- A row of the `users` table (only id and wallet balance matter here). -/
structure UserRow where
  id : ℕ
  walletBalance : ℚ
  deriving Repr, DecidableEq

/-- A row of the append-only `wallet_transactions` ledger. -/
structure WalletTxRow where
  userId : ℕ
  txType : String
  amount : ℚ
  balanceAfter : ℚ
  reference : Option String
  deriving Repr, DecidableEq

/-- A row of the `payments` table. -/
structure PaymentRow where
  id : ℕ
  orderId : ℕ
  provider : String
  status : String
  amount : ℚ
  providerRef : Option String
  deriving Repr, DecidableEq

/-- A row of the `wallet_topups` table. -/
structure TopupRow where
  id : ℕ
  userId : ℕ
  provider : String
  amount : ℚ
  status : String
  providerRef : Option String
  deriving Repr, DecidableEq

/-- The relational store.  Rows are kept in insertion order (so `created_at`
ordering coincides with list order); the `next*Id` counters model
`AUTO_INCREMENT`. -/
structure Db where
  products : List ProductRow
  orders : List OrderRow
  orderItems : List OrderItemRow
  users : List UserRow
  walletTxs : List WalletTxRow
  payments : List PaymentRow
  topups : List TopupRow
  nextOrderId : ℕ
  nextPaymentId : ℕ
  nextTopupId : ℕ
  deriving Repr, DecidableEq

/-- First row of `products` with the given id (`SELECT ... WHERE id = ?`;
ids are unique, so first match is the row). -/
def findProduct : List ProductRow → ℕ → Option ProductRow
  | [], _ => none
  | p :: ps, pid => if p.id = pid then some p else findProduct ps pid

/-- On-hand quantity the order models see for a product id: the row's
quantity, or `0` when the id matches no row (the stock map built from the
`SELECT ... FOR UPDATE` result defaults missing ids to 0). -/
def onHandL (ps : List ProductRow) (pid : ℕ) : ℤ :=
  ((findProduct ps pid).map ProductRow.qty).getD 0

/-- On-hand quantity read from a database state. -/
def onHand (db : Db) (pid : ℕ) : ℤ := onHandL db.products pid

/-- Embedding of the guarded decrement
`UPDATE products SET quantity = quantity - n WHERE id = pid AND quantity >= n`:
`none` when the statement affects zero rows. -/
def condDec : List ProductRow → ℕ → ℤ → Option (List ProductRow)
  | [], _, _ => none
  | p :: ps, pid, n =>
    if p.id = pid then
      if n ≤ p.qty then some ({ p with qty := p.qty - n } :: ps) else none
    else (condDec ps pid n).map (fun ps' => p :: ps')

/-- Embedding of the unguarded decrement
`UPDATE products SET quantity = quantity - n WHERE id = pid` used by the
order model embedded in `src/app.js`. -/
def uncondDec : List ProductRow → ℕ → ℤ → List ProductRow
  | [], _, _ => []
  | p :: ps, pid, n =>
    if p.id = pid then { p with qty := p.qty - n } :: ps else p :: uncondDec ps pid n

/-- First row of `users` with the given id. -/
def findUser : List UserRow → ℕ → Option UserRow
  | [], _ => none
  | u :: us, uid => if u.id = uid then some u else findUser us uid

/-- Embedding of `UPDATE users SET wallet_balance = ? WHERE id = ?`; when the
id matches no row the statement affects nothing and the table is unchanged. -/
def setBalance : List UserRow → ℕ → ℚ → List UserRow
  | [], _, _ => []
  | u :: us, uid, b =>
    if u.id = uid then { u with walletBalance := b } :: us else u :: setBalance us uid b

/-- The current balance a wallet read yields: the user's row, or `0` when the
id matches no row (`rows[0] ? Number(rows[0].wallet_balance || 0) : 0`). -/
def walletBalanceOf (db : Db) (uid : ℕ) : ℚ :=
  ((findUser db.users uid).map UserRow.walletBalance).getD 0

/-- The options object of `Order.create` / `Order.createWithWallet` with the
source's defaults. -/
structure OrderOptions where
  deliveryMethod : String := "pickup"
  deliveryAddress : Option String := none
  deliveryFee : ℚ := 0
  deriving Repr, DecidableEq

/-- The result object of a successful `Order.create`. -/
structure CreateResult where
  orderId : ℕ
  total : ℚ
  deliveryMethod : String
  deliveryAddress : Option String
  deliveryFee : ℚ
  deriving Repr, DecidableEq

/-- The result object of a successful `Order.createWithWallet`. -/
structure WalletCreateResult where
  orderId : ℕ
  total : ℚ
  deliveryMethod : String
  deliveryAddress : Option String
  deliveryFee : ℚ
  walletBalance : ℚ
  deriving Repr, DecidableEq

/-- Embedding of `cartItems.reduce((sum, item) => sum + price * quantity, 0)`; the
`Number.isFinite` skip of the source is vacuous over `ℚ`. -/
def itemsSubtotal (items : List CartItem) : ℚ :=
  items.foldl (fun s i => s + i.price * (i.quantity : ℚ)) 0

/-- Embedding of `deliveryFee > 0 ? Number(deliveryFee.toFixed(2)) : 0` from both order
models. -/
def safeFee (fee : ℚ) : ℚ := if 0 < fee then round2 fee else 0

/-- Embedding of `finalTotal = Number((orderTotal + safeDeliveryFee).toFixed(2))` with
`orderTotal = Number(totalBeforeRound.toFixed(2))`. -/
def orderFinalTotal (items : List CartItem) (opts : OrderOptions) : ℚ :=
  round2 (round2 (itemsSubtotal items) + safeFee opts.deliveryFee)

/-- Total requested quantity for a product id summed over all cart lines
that mention it. -/
def demand : List CartItem → ℕ → ℤ
  | [], _ => 0
  | i :: rest, pid => (if i.productId = pid then i.quantity else 0) + demand rest pid

/-- The per-line check of the validation loop in `src/models/order.js`
(lines 60-69): invalid quantity first, then the stock comparison against the
locked snapshot.  Note that the line is checked alone — quantities of other
lines with the same product id are not summed. -/
def validateLine (db : Db) (i : CartItem) : Option String :=
  if i.quantity ≤ 0 then some ("Invalid quantity for " ++ i.productName ++ ".")
  else if onHand db i.productId < i.quantity then
    some ("Not enough stock for " ++ i.productName ++ ".")
  else none

/-- The whole validation loop: the first failing line's error, or `none`. -/
def validateStock (db : Db) (items : List CartItem) : Option String :=
  items.findSome? (validateLine db)

/-- Observable actions of the wallet-purchase transaction, in the order the
corresponding SQL statements are issued on the connection. -/
inductive WEv where
  | lockWallet (userId : ℕ)
  | balanceChecked (balance : ℚ) (ok : Bool)
  | lockProducts (pids : List ℕ)
  | insertOrder (orderId : ℕ)
  | stockDec (pid : ℕ) (n : ℤ)
  | insertItem (pid : ℕ)
  | walletWrite (newBalance : ℚ)
  | txInsert (reference : String)
  deriving Repr, DecidableEq

/-- Embedding of `[...new Set(cartItems.map(item => item.productId))]`: product ids in
first-occurrence order without duplicates. -/
def pidsOf (items : List CartItem) : List ℕ := (items.map CartItem.productId).eraseDups

/-- The per-item phase of `create`/`createWithWallet` in
`src/models/order.js`: the item promises enqueue their guarded decrements in
cart order on the single connection, so the decrements run sequentially, each
seeing the previous ones; the first `affectedRows === 0` (or invalid
quantity) rejects and the transaction rolls back.  Returns the emitted events
together with the rolled-forward database. -/
def applyItemsT (orderId : ℕ) : List CartItem → Db → List WEv × Except String Db
  | [], db => ([], .ok db)
  | i :: rest, db =>
    if i.quantity ≤ 0 then
      ([], .error ("Invalid quantity detected for " ++ i.productName ++ "."))
    else
      match condDec db.products i.productId i.quantity with
      | none => ([.stockDec i.productId i.quantity],
          .error ("Not enough stock for " ++ i.productName ++ "."))
      | some ps =>
        match applyItemsT orderId rest
          { db with products := ps,
                    orderItems := db.orderItems ++
                      [⟨orderId, i.productId, i.quantity, i.price⟩] } with
        | (evs, r) => (.stockDec i.productId i.quantity :: .insertItem i.productId :: evs, r)

/-- Rollback semantics of a transaction: an `.error` outcome leaves the
caller with the pre-transaction database. -/
def resultDb {α : Type} (db : Db) : Except String (Db × α) → Db
  | .error _ => db
  | .ok (db', _) => db'

/-- True exactly on the `.error` outcome. -/
def isErr {ε α : Type} : Except ε α → Bool
  | .error _ => true
  | .ok _ => false

/-- Database of an `.ok` outcome, if any. -/
def okDb {α : Type} : Except String (Db × α) → Option Db
  | .ok (db, _) => some db
  | .error _ => none

/-- Embedding of `create` from `src/models/order.js` (lines 10-133): empty
cart rejected, totals computed, all referenced product rows locked, the
per-line validation loop, the order insert, then the per-item guarded
decrements and item inserts; any failure rolls the transaction back.  The
event list of `applyItemsT` is ignored here (it is used by the wallet
variant). -/
def orderCreate (userId : ℕ) (items : List CartItem) (opts : OrderOptions) (db : Db) :
    Except String (Db × CreateResult) :=
  if items.isEmpty then .error "Cart is empty."
  else
    match validateStock db items with
    | some e => .error e
    | none =>
      match (applyItemsT db.nextOrderId items
        { db with
          orders := db.orders ++ [⟨db.nextOrderId, userId, orderFinalTotal items opts,
            opts.deliveryMethod, opts.deliveryAddress, safeFee opts.deliveryFee⟩],
          nextOrderId := db.nextOrderId + 1 }).2 with
      | .error e => .error e
      | .ok db2 => .ok (db2, ⟨db.nextOrderId, orderFinalTotal items opts,
          opts.deliveryMethod, opts.deliveryAddress, safeFee opts.deliveryFee⟩)

/-- The per-line check of the `create` variant embedded in `src/app.js`
(lines 227-337): invalid quantity, then existence, then the stock comparison.
Each line's `SELECT ... FOR UPDATE` is enqueued before any decrement runs on
the shared connection, so every line is checked against the pre-transaction
quantity. -/
def appValidateLine (db : Db) (i : CartItem) : Option String :=
  if i.quantity ≤ 0 then some ("Invalid quantity detected for " ++ i.productName ++ ".")
  else
    match findProduct db.products i.productId with
    | none => some (i.productName ++ " does not exist.")
    | some p =>
      if p.qty < i.quantity then some ("Insufficient stock for " ++ i.productName ++ ".")
      else none

/-- Embedding of the `create` variant in `src/app.js` (lines 227-337).  It
inserts the order first; each item promise then reads the product row,
checks it, inserts the order item and issues the unguarded decrement
`UPDATE products SET quantity = quantity - ? WHERE id = ?`.  On the single
connection all reads execute before all decrements, so each line is checked
against the initial stock and the decrements are then applied
unconditionally; any per-line failure rolls everything back. -/
def appOrderCreate (userId : ℕ) (items : List CartItem) (opts : OrderOptions) (db : Db) :
    Except String (Db × CreateResult) :=
  if items.isEmpty then .error "Cart is empty."
  else
    match items.findSome? (appValidateLine db) with
    | some e => .error e
    | none =>
      .ok (items.foldl (fun d i =>
            { d with
              orderItems := d.orderItems ++ [⟨db.nextOrderId, i.productId, i.quantity, i.price⟩],
              products := uncondDec d.products i.productId i.quantity })
          { db with
            orders := db.orders ++ [⟨db.nextOrderId, userId, orderFinalTotal items opts,
              opts.deliveryMethod, opts.deliveryAddress, safeFee opts.deliveryFee⟩],
            nextOrderId := db.nextOrderId + 1 },
        ⟨db.nextOrderId, orderFinalTotal items opts, opts.deliveryMethod,
          opts.deliveryAddress, safeFee opts.deliveryFee⟩)

/-- Embedding of `createWithWallet` from `src/models/order.js` (lines
143-299).  The wallet row is locked first and the balance checked before any
product row is touched; then the stock is validated and reserved exactly as
in `orderCreate`; finally the wallet is debited and a `purchase` ledger row
appended, all in the same transaction.  The first component records the
observable actions in issue order. -/
def createWithWallet (userId : ℕ) (items : List CartItem) (opts : OrderOptions) (db : Db) :
    List WEv × Except String (Db × WalletCreateResult) :=
  if items.isEmpty then ([], .error "Cart is empty.")
  else
    if walletBalanceOf db userId < orderFinalTotal items opts then
      ([.lockWallet userId, .balanceChecked (walletBalanceOf db userId) false],
       .error "Insufficient wallet balance.")
    else
      match validateStock db items with
      | some e =>
        ([.lockWallet userId, .balanceChecked (walletBalanceOf db userId) true,
          .lockProducts (pidsOf items)], .error e)
      | none =>
        match applyItemsT db.nextOrderId items
          { db with
            orders := db.orders ++ [⟨db.nextOrderId, userId, orderFinalTotal items opts,
              opts.deliveryMethod, opts.deliveryAddress, safeFee opts.deliveryFee⟩],
            nextOrderId := db.nextOrderId + 1 } with
        | (evs, .error e) =>
          ([.lockWallet userId, .balanceChecked (walletBalanceOf db userId) true,
            .lockProducts (pidsOf items), .insertOrder db.nextOrderId] ++ evs, .error e)
        | (evs, .ok db2) =>
          ([.lockWallet userId, .balanceChecked (walletBalanceOf db userId) true,
            .lockProducts (pidsOf items), .insertOrder db.nextOrderId] ++ evs ++
            [.walletWrite (round2 (walletBalanceOf db userId - orderFinalTotal items opts)),
             .txInsert ("order:" ++ toString db.nextOrderId)],
           .ok ({ db2 with
                  users := setBalance db2.users userId
                    (round2 (walletBalanceOf db userId - orderFinalTotal items opts)),
                  walletTxs := db2.walletTxs ++
                    [⟨userId, "purchase", -(orderFinalTotal items opts),
                      round2 (walletBalanceOf db userId - orderFinalTotal items opts),
                      some ("order:" ++ toString db.nextOrderId)⟩] },
                ⟨db.nextOrderId, orderFinalTotal items opts, opts.deliveryMethod,
                  opts.deliveryAddress, safeFee opts.deliveryFee,
                  round2 (walletBalanceOf db userId - orderFinalTotal items opts)⟩))

/-- Embedding of `getBalance` from the wallet model in
`src/controllers/UserController.js` (lines 212-221): a plain read that yields
`0` when the user id matches no row. -/
def getBalance (db : Db) (uid : ℕ) : ℚ := walletBalanceOf db uid

/-- Embedding of `creditWithType` from the wallet model in
`src/controllers/UserController.js` (lines 223-270): reject non-positive
amounts (the `Number.isFinite` guard is vacuous over `ℚ`), lock and read the
wallet row (missing row reads as balance 0), write
`round(current + amount, 2)` back (a missing row makes the update a no-op)
and append one ledger row carrying that balance, all in one transaction.
`txType = none` models a falsy `type` argument (`type || 'topup'`). -/
def creditWithType (uid : ℕ) (amount : ℚ) (txType : Option String)
    (reference : Option String) (db : Db) : Except String (Db × ℚ) :=
  if amount ≤ 0 then .error "Invalid top up amount."
  else
    let current := walletBalanceOf db uid
    let nb := round2 (current + amount)
    .ok ({ db with
            users := setBalance db.users uid nb,
            walletTxs := db.walletTxs ++ [⟨uid, txType.getD "topup", amount, nb, reference⟩] },
         nb)

/-- The pending-checkout context held in the session between the checkout
and payment-confirmation steps. -/
structure PendingCheckout where
  deliveryMethod : String
  deliveryAddress : Option String
  deliveryFee : ℚ
  deriving Repr, DecidableEq

/-- The session slice a payment-confirmation request sees: the pending
checkout context and the cart snapshot. -/
structure CheckoutSession where
  pending : Option PendingCheckout
  cart : List CartItem
  deriving Repr, DecidableEq

/-- HTTP-level outcome of a settlement handler. -/
inductive PayResp where
  | badRequest (msg : String)
  | serverError (msg : String)
  | okRedirect (path : String)
  deriving Repr, DecidableEq

/-- Embedding of `calculateTotals` from the payment controller (`src/unnamed/part_002`
lines 111-128): the delivery fee is added to the unrounded items total and
the sum rounded once. -/
def calcTotalWithFees (items : List CartItem) (fee : ℚ) : ℚ :=
  round2 (itemsSubtotal items + fee)

/-- The fields of a PayPal capture response the handlers read: the order
status, the capture id and the captured amount (the latter two are absent
when the response carries no capture). -/
structure PaypalCaptureData where
  status : String
  captureId : Option String
  capturedAmount : Option ℚ
  deriving Repr, DecidableEq

/-- Embedding of `if (capturedAmount && capturedAmount !== expectedTotal)` — the mismatch
test is skipped entirely when the response carries no amount. -/
def capturedAmountMismatch : Option ℚ → ℚ → Bool
  | some a, expected => a != expected
  | none, _ => false

/-- First `wallet_topups` row with the given provider reference
(`findByProviderRef`, `WHERE provider_ref = ? LIMIT 1`). -/
def findTopupByRef : List TopupRow → String → Option TopupRow
  | [], _ => none
  | t :: ts, r => if t.providerRef = some r then some t else findTopupByRef ts r

/-- Embedding of `capturePaypalOrder` (`src/unnamed/part_002` lines
158-237).  `capture` is the provider call's outcome (a throw is caught and
answered with HTTP 500, mutating nothing).  `paymentInsertOk` models whether
the fire-and-forget `Payment.create` insert succeeds; its failure is only
logged, so the response and the order are unaffected.  Session clearing
happens outside the returned database. -/
def capturePaypalOrder (userId : ℕ) (sess : CheckoutSession) (orderIdParam : Option String)
    (capture : Except String PaypalCaptureData) (paymentInsertOk : Bool) (db : Db) :
    PayResp × Db :=
  match sess.pending with
  | none => (.badRequest "Please confirm delivery details first.", db)
  | some pending =>
    if sess.cart.isEmpty then (.badRequest "Your cart is empty.", db)
    else
      match orderIdParam with
      | none => (.badRequest "Missing PayPal order ID.", db)
      | some _ =>
        let expectedTotal := calcTotalWithFees sess.cart pending.deliveryFee
        match capture with
        | .error _ => (.serverError "Unable to capture PayPal payment.", db)
        | .ok c =>
          if c.status ≠ "COMPLETED" then (.badRequest "PayPal payment not completed.", db)
          else if capturedAmountMismatch c.capturedAmount expectedTotal then
            (.badRequest "PayPal amount mismatch.", db)
          else
            match orderCreate userId sess.cart
                ⟨pending.deliveryMethod, pending.deliveryAddress, pending.deliveryFee⟩ db with
            | .error _ => (.serverError "Unable to complete checkout. Please try again.", db)
            | .ok (db1, r) =>
              if paymentInsertOk then
                (.okRedirect "/orders/history",
                 { db1 with
                    payments := db1.payments ++
                      [⟨db1.nextPaymentId, r.orderId, "paypal", "paid", expectedTotal, c.captureId⟩],
                    nextPaymentId := db1.nextPaymentId + 1 })
              else (.okRedirect "/orders/history", db1)

/-- The fields of a retrieved Stripe payment intent the handler reads. -/
structure StripeIntent where
  status : String
  amountReceived : ℤ
  deriving Repr, DecidableEq

/-- Embedding of `confirmStripeOrder` (`src/unnamed/part_002` lines
728-803): requires a retrieved intent with status `succeeded` and
`amount_received` equal to the recomputed total in cents; then creates the
order and attempts the Payment insert (failure only logged). -/
def confirmStripeOrder (userId : ℕ) (sess : CheckoutSession) (intentIdParam : Option String)
    (intent : Except String (Option StripeIntent)) (paymentInsertOk : Bool) (db : Db) :
    PayResp × Db :=
  match sess.pending with
  | none => (.badRequest "Please confirm delivery details first.", db)
  | some pending =>
    if sess.cart.isEmpty then (.badRequest "Your cart is empty.", db)
    else
      match intentIdParam with
      | none => (.badRequest "Missing Stripe payment intent.", db)
      | some intentId =>
        let totalWithFees := calcTotalWithFees sess.cart pending.deliveryFee
        let expectedCents := jsRound (totalWithFees * 100)
        match intent with
        | .error _ => (.serverError "Unable to confirm Stripe payment.", db)
        | .ok none => (.badRequest "Stripe payment not completed.", db)
        | .ok (some it) =>
          if it.status ≠ "succeeded" then (.badRequest "Stripe payment not completed.", db)
          else if it.amountReceived ≠ expectedCents then
            (.badRequest "Stripe amount mismatch.", db)
          else
            match orderCreate userId sess.cart
                ⟨pending.deliveryMethod, pending.deliveryAddress, pending.deliveryFee⟩ db with
            | .error _ => (.serverError "Unable to complete checkout. Please try again.", db)
            | .ok (db1, r) =>
              if paymentInsertOk then
                (.okRedirect "/orders/history",
                 { db1 with
                    payments := db1.payments ++
                      [⟨db1.nextPaymentId, r.orderId, "stripe", "paid", totalWithFees,
                        some intentId⟩],
                    nextPaymentId := db1.nextPaymentId + 1 })
              else (.okRedirect "/orders/history", db1)

/-- Outcome of a wallet top-up capture. -/
inductive TopupResp where
  | badRequest (msg : String)
  | serverError (msg : String)
  | okRedirect (path : String)
  deriving Repr, DecidableEq

/-- Embedding of `capturePaypalTopup` (`src/unnamed/part_002` lines
456-514): after a completed capture with an id and an amount, the capture id
is first checked against `wallet_topups`; a hit short-circuits with the
success redirect and no mutation; otherwise the wallet is credited with
reference `paypal:<captureId>` and a completed top-up row recorded. -/
def capturePaypalTopup (userId : ℕ) (orderIdParam : Option String)
    (capture : Except String PaypalCaptureData) (db : Db) : TopupResp × Db :=
  match orderIdParam with
  | none => (.badRequest "Missing PayPal order ID.", db)
  | some _ =>
    match capture with
    | .error _ => (.serverError "Unable to capture PayPal payment.", db)
    | .ok c =>
      if c.status ≠ "COMPLETED" then (.badRequest "PayPal payment not completed.", db)
      else
        match c.captureId, c.capturedAmount with
        | some cid, some amt =>
          match findTopupByRef db.topups cid with
          | some _ => (.okRedirect "/wallet", db)
          | none =>
            match creditWithType userId amt (some "topup") (some ("paypal:" ++ cid)) db with
            | .error _ => (.serverError "Unable to credit wallet.", db)
            | .ok (db1, _) =>
              (.okRedirect "/wallet",
               { db1 with
                  topups := db1.topups ++
                    [⟨db1.nextTopupId, userId, "paypal", amt, "completed", some cid⟩],
                  nextTopupId := db1.nextTopupId + 1 })
        | _, _ => (.badRequest "Unable to confirm PayPal payment.", db)

/-- Outcome of the admin refund handler. -/
inductive RefundOutcome where
  | invalidOrder
  | noPayment
  | alreadyRefunded
  | orderNotFound
  | creditFailed
  | creditedButMarkFailed
  | refunded
  deriving Repr, DecidableEq

/-- Embedding of `Payment.findByOrderId` (`ORDER BY created_at DESC, id DESC LIMIT 1`):
payment rows are appended in creation order, so the query returns the last
matching row. -/
def findPaymentByOrderId (db : Db) (oid : ℕ) : Option PaymentRow :=
  (db.payments.filter (fun p => p.orderId == oid)).getLast?

/-- First `orders` row with the given id (`Order.findById`). -/
def findOrderById (db : Db) (oid : ℕ) : Option OrderRow :=
  db.orders.find? (fun o => o.id == oid)

/-- Embedding of `Payment.markRefunded`, the update setting status to refunded by payment id. -/
def markRefundedRow (ps : List PaymentRow) (pid : ℕ) : List PaymentRow :=
  ps.map (fun p => if p.id = pid then { p with status := "refunded" } else p)

/-- Embedding of `refundPayment` (`src/unnamed/part_002` lines 954-1013):
no Payment row or an already-refunded one rejects without touching state;
otherwise the order's owning user is credited `payment.amount` as a
`refund` ledger entry with reference `refund:order:<orderId>` (its own
committed transaction), and only then is the Payment row marked refunded.
`markOk` models whether that final update succeeds; when it fails the
credit stays committed and the distinct `creditedButMarkFailed` outcome is
surfaced — there is no retry. -/
def refundPayment (orderId : ℕ) (markOk : Bool) (db : Db) : RefundOutcome × Db :=
  match findPaymentByOrderId db orderId with
  | none => (.noPayment, db)
  | some payment =>
    if payment.status = "refunded" then (.alreadyRefunded, db)
    else
      match findOrderById db orderId with
      | none => (.orderNotFound, db)
      | some order =>
        match creditWithType order.userId payment.amount (some "refund")
            (some ("refund:order:" ++ toString orderId)) db with
        | .error _ => (.creditFailed, db)
        | .ok (db1, _) =>
          if markOk then
            (.refunded, { db1 with payments := markRefundedRow db1.payments payment.id })
          else (.creditedButMarkFailed, db1)

/-- The `result.data` body of a NETS query response. -/
structure NetsResp where
  responseCode : String
  txnStatus : ℤ
  deriving Repr, DecidableEq

/-- Events the NETS status stream writes to the client. -/
inductive NetsStreamEvent where
  | dataEv (r : NetsResp)
  | successEv
  | failEv (r : NetsResp)
  | errorEv (msg : String)
  | timeoutEv
  deriving Repr, DecidableEq

/-- Terminal events of the stream (success, definitive failure, query error,
timeout failure); after any of these the response is ended. -/
def isNetsTerminal : NetsStreamEvent → Bool
  | .dataEv _ => false
  | _ => true

/-- What a finished stream did: the events written, the
`frontend_timeout_status` flag value sent with each provider query in poll
order, and whether the interval timer was cleared. -/
structure StreamOutcome where
  events : List NetsStreamEvent
  flagsSent : List ℤ
  timerCleared : Bool
  deriving Repr, DecidableEq

/-- The `maxPolls = 60` bound of `streamNetsPaymentStatus`. -/
def netsMaxPolls : ℕ := 60

/-- The `setInterval` period of the status stream, in milliseconds. -/
def netsIntervalMs : ℕ := 5000

/-- One run of the `setInterval` body of `streamNetsPaymentStatus`
(`src/unnamed/part_002` lines 330-388), as a function of the provider's
answer to each poll (`oracle pollCount flag`; a `.error` models a thrown
query).  Faithful to the source order: data written, success test, the
`frontendTimeoutStatus === 1` failure test, then the `pollCount >= maxPolls`
timeout — which clears the interval *before* setting the flag to 1, so no
later poll can ever carry it.  `fuel` bounds the recursion; the entry point
supplies `netsMaxPolls`, which the timeout branch makes sufficient. -/
def runNetsStreamAux (oracle : ℕ → ℤ → Except String NetsResp) :
    ℕ → ℕ → ℤ → StreamOutcome
  | 0, _, _ => ⟨[], [], false⟩
  | fuel + 1, pollCount, flag =>
    let k := pollCount + 1
    match oracle k flag with
    | .error msg => ⟨[.errorEv msg], [flag], true⟩
    | .ok r =>
      if r.responseCode = "00" ∧ r.txnStatus = 1 then
        ⟨[.dataEv r, .successEv], [flag], true⟩
      else if flag = 1 ∧ (r.responseCode ≠ "00" ∨ r.txnStatus = 2) then
        ⟨[.dataEv r, .failEv r], [flag], true⟩
      else if netsMaxPolls ≤ k then
        ⟨[.dataEv r, .timeoutEv], [flag], true⟩
      else
        let rest := runNetsStreamAux oracle fuel k flag
        ⟨.dataEv r :: rest.events, flag :: rest.flagsSent, rest.timerCleared⟩

/-- The full status stream: polls start at count 0 with the timeout flag 0. -/
def runNetsStream (oracle : ℕ → ℤ → Except String NetsResp) : StreamOutcome :=
  runNetsStreamAux oracle netsMaxPolls 0 0

/-! Helper lemmas about the stock table and the demand of a cart. -/

theorem onHandL_nil (pid : ℕ) : onHandL [] pid = 0 := rfl

theorem onHandL_cons (p : ProductRow) (ps : List ProductRow) (pid : ℕ) :
    onHandL (p :: ps) pid = if p.id = pid then p.qty else onHandL ps pid := by
  by_cases hp : p.id = pid <;> simp [onHandL, findProduct, hp]

theorem demand_nil (pid : ℕ) : demand [] pid = 0 := rfl

theorem demand_cons (i : CartItem) (rest : List CartItem) (pid : ℕ) :
    demand (i :: rest) pid = (if i.productId = pid then i.quantity else 0) + demand rest pid := rfl

theorem demand_nonneg {items : List CartItem} (hpos : ∀ j ∈ items, 0 < j.quantity)
    (pid : ℕ) : 0 ≤ demand items pid := by
  induction items with
  | nil => simp [demand]
  | cons i rest ih =>
    have h1 : 0 < i.quantity := hpos i (List.mem_cons_self i rest)
    have h2 := ih (fun j hj => hpos j (List.mem_cons_of_mem i hj))
    unfold demand
    split <;> omega

theorem demand_eq_zero_of_not_mem {items : List CartItem} {pid : ℕ}
    (h : ∀ j ∈ items, j.productId ≠ pid) : demand items pid = 0 := by
  induction items with
  | nil => rfl
  | cons i rest ih =>
    have h1 : i.productId ≠ pid := h i (List.mem_cons_self i rest)
    have h2 := ih (fun j hj => h j (List.mem_cons_of_mem i hj))
    unfold demand
    rw [if_neg h1, h2]
    omega

theorem qty_le_demand {items : List CartItem} {i : CartItem}
    (hpos : ∀ j ∈ items, 0 < j.quantity) (hi : i ∈ items) :
    i.quantity ≤ demand items i.productId := by
  induction items with
  | nil => cases hi
  | cons j rest ih =>
    have hrest : ∀ k ∈ rest, 0 < k.quantity := fun k hk => hpos k (List.mem_cons_of_mem j hk)
    rcases List.mem_cons.mp hi with rfl | hi'
    · have := demand_nonneg hrest i.productId
      unfold demand
      rw [if_pos rfl]
      omega
    · have h1 := ih hrest hi'
      have h2 : (if j.productId = i.productId then j.quantity else 0) ≥ 0 := by
        split
        · exact le_of_lt (hpos j (List.mem_cons_self j rest))
        · exact le_refl 0
      unfold demand
      omega

theorem condDec_isSome_of_le {ps : List ProductRow} {pid : ℕ} {n : ℤ}
    (hn : 0 < n) (h : n ≤ onHandL ps pid) : ∃ ps', condDec ps pid n = some ps' := by
  induction ps with
  | nil => rw [onHandL_nil] at h; omega
  | cons p ps ih =>
    rw [onHandL_cons] at h
    by_cases hp : p.id = pid
    · rw [if_pos hp] at h
      exact ⟨_, by unfold condDec; rw [if_pos hp, if_pos h]⟩
    · rw [if_neg hp] at h
      obtain ⟨ps', hps'⟩ := ih h
      exact ⟨p :: ps', by unfold condDec; rw [if_neg hp, hps']; rfl⟩

theorem condDec_le {ps ps' : List ProductRow} {pid : ℕ} {n : ℤ}
    (h : condDec ps pid n = some ps') : n ≤ onHandL ps pid := by
  induction ps generalizing ps' with
  | nil => simp [condDec] at h
  | cons p ps ih =>
    unfold condDec at h
    rw [onHandL_cons]
    by_cases hp : p.id = pid
    · rw [if_pos hp] at h
      rw [if_pos hp]
      by_cases hq : n ≤ p.qty
      · exact hq
      · rw [if_neg hq] at h; cases h
    · rw [if_neg hp] at h
      rw [if_neg hp]
      cases hcd : condDec ps pid n with
      | none => rw [hcd] at h; cases h
      | some ps'' => exact ih hcd

theorem condDec_onHand {ps ps' : List ProductRow} {pid : ℕ} {n : ℤ}
    (h : condDec ps pid n = some ps') (q : ℕ) :
    onHandL ps' q = if q = pid then onHandL ps q - n else onHandL ps q := by
  induction ps generalizing ps' with
  | nil => simp [condDec] at h
  | cons p ps ih =>
    unfold condDec at h
    by_cases hp : p.id = pid
    · rw [if_pos hp] at h
      by_cases hle : n ≤ p.qty
      · rw [if_pos hle] at h
        cases h
        by_cases hq : q = pid
        · rw [onHandL_cons, onHandL_cons, if_pos (show p.id = q from hp.trans hq.symm)]
          simp only [show ({ p with qty := p.qty - n } : ProductRow).id = p.id from rfl,
            if_pos (hp.trans hq.symm), if_pos hq]
        · rw [onHandL_cons, onHandL_cons, if_neg hq]
          have hpq : ¬ p.id = q := fun hc => hq (hc.symm.trans hp)
          simp only [show ({ p with qty := p.qty - n } : ProductRow).id = p.id from rfl,
            if_neg hpq]
      · rw [if_neg hle] at h; cases h
    · rw [if_neg hp] at h
      cases hcd : condDec ps pid n with
      | none => rw [hcd] at h; cases h
      | some ps'' =>
        rw [hcd] at h
        cases h
        have hrec := ih hcd
        by_cases hpq : p.id = q
        · have hqpid : ¬ q = pid := fun hc => hp (hpq.trans hc)
          rw [onHandL_cons, onHandL_cons, if_pos hpq, if_pos hpq, if_neg hqpid]
        · rw [onHandL_cons, onHandL_cons, if_neg hpq, if_neg hpq, hrec]

theorem applyItemsT_frame {oid : ℕ} :
    ∀ {items : List CartItem} {db db' : Db},
    (applyItemsT oid items db).2 = .ok db' →
    db'.users = db.users ∧ db'.walletTxs = db.walletTxs ∧ db'.orders = db.orders ∧
    db'.nextOrderId = db.nextOrderId ∧ db'.payments = db.payments ∧
    db'.topups = db.topups ∧ db'.nextPaymentId = db.nextPaymentId ∧
    db'.nextTopupId = db.nextTopupId := by
  intro items
  induction items with
  | nil =>
    intro db db' h
    replace h : db = db' := by simpa [applyItemsT] using h
    subst h
    exact ⟨rfl, rfl, rfl, rfl, rfl, rfl, rfl, rfl⟩
  | cons i rest ih =>
    intro db db' h
    rw [applyItemsT] at h
    split at h
    · simp at h
    · split at h
      · simp at h
      · rename_i ps hcd
        split at h
        rename_i evs2 r2 hrec
        replace h : r2 = Except.ok db' := h
        subst h
        have h2 : (applyItemsT oid rest
            { db with products := ps,
                      orderItems := db.orderItems ++
                        [⟨oid, i.productId, i.quantity, i.price⟩] }).2 = Except.ok db' := by
          rw [hrec]
        have h3 := ih h2
        exact h3

theorem applyItemsT_ok {oid : ℕ} :
    ∀ {items : List CartItem} (db : Db),
    (∀ i ∈ items, 0 < i.quantity) →
    (∀ i ∈ items, demand items i.productId ≤ onHandL db.products i.productId) →
    ∃ db', (applyItemsT oid items db).2 = .ok db'
      ∧ (∀ q, onHandL db'.products q = onHandL db.products q - demand items q)
      ∧ db'.orderItems = db.orderItems ++
          items.map (fun i => OrderItemRow.mk oid i.productId i.quantity i.price) := by
  intro items
  induction items with
  | nil =>
    intro db _ _
    exact ⟨db, rfl, fun q => by simp [demand], by simp⟩
  | cons i rest ih =>
    intro db hpos hdem
    have hqi : 0 < i.quantity := hpos i (List.mem_cons_self i rest)
    have hrestpos : ∀ j ∈ rest, 0 < j.quantity := fun j hj => hpos j (List.mem_cons_of_mem i hj)
    have hdi : demand (i :: rest) i.productId ≤ onHandL db.products i.productId :=
      hdem i (List.mem_cons_self i rest)
    have hdnn : 0 ≤ demand rest i.productId := demand_nonneg hrestpos _
    have hsplit : demand (i :: rest) i.productId = i.quantity + demand rest i.productId := by
      rw [demand_cons, if_pos rfl]
    have hle : i.quantity ≤ onHandL db.products i.productId := by omega
    obtain ⟨ps', hps'⟩ := condDec_isSome_of_le hqi hle
    have hOn := condDec_onHand hps'
    have hdem' : ∀ j ∈ rest, demand rest j.productId ≤ onHandL ps' j.productId := by
      intro j hj
      have hj2 := hdem j (List.mem_cons_of_mem i hj)
      have hone := hOn j.productId
      by_cases hpp : j.productId = i.productId
      · rw [if_pos hpp] at hone
        have hs2 : demand (i :: rest) j.productId = i.quantity + demand rest j.productId := by
          rw [demand_cons, if_pos hpp.symm]
        omega
      · rw [if_neg hpp] at hone
        have hs2 : demand (i :: rest) j.productId = 0 + demand rest j.productId := by
          rw [demand_cons, if_neg (fun hc => hpp hc.symm)]
        omega
    obtain ⟨db2, hok, hOn2, hItems2⟩ := ih
      { db with products := ps',
                orderItems := db.orderItems ++ [⟨oid, i.productId, i.quantity, i.price⟩] }
      hrestpos hdem'
    dsimp only at hok hOn2 hItems2
    refine ⟨db2, ?_, ?_, ?_⟩
    · rw [applyItemsT, if_neg (not_le.mpr hqi)]
      split
      · rename_i hnone
        rw [hps'] at hnone
        simp at hnone
      · rename_i ps0 hsome
        rw [hps'] at hsome
        injection hsome with hps0
        subst hps0
        split
        rename_i evs2 r2 hrec
        rw [hrec] at hok
        exact hok
    · intro q
      have h1 := hOn2 q
      have h2 := hOn q
      have hs2 : demand (i :: rest) q =
          (if i.productId = q then i.quantity else 0) + demand rest q := demand_cons i rest q
      by_cases hq : q = i.productId
      · rw [if_pos hq] at h2
        rw [if_pos hq.symm] at hs2
        omega
      · rw [if_neg hq] at h2
        rw [if_neg (fun hc => hq hc.symm)] at hs2
        omega
    · rw [hItems2]
      simp [List.append_assoc]

theorem applyItemsT_ok_inv {oid : ℕ} :
    ∀ {items : List CartItem} {db db' : Db},
    (applyItemsT oid items db).2 = .ok db' →
    (∀ i ∈ items, 0 < i.quantity) ∧
    (∀ i ∈ items, demand items i.productId ≤ onHandL db.products i.productId) := by
  intro items
  induction items with
  | nil =>
    intro db db' _
    exact ⟨fun i hi => absurd hi (List.not_mem_nil i), fun i hi => absurd hi (List.not_mem_nil i)⟩
  | cons i rest ih =>
    intro db db' h
    rw [applyItemsT] at h
    split at h
    · simp at h
    · rename_i hq
      split at h
      · simp at h
      · rename_i ps hcd
        split at h
        rename_i evs2 r2 hrec
        replace h : r2 = Except.ok db' := h
        subst h
        have hih : (applyItemsT oid rest
            { db with products := ps,
                      orderItems := db.orderItems ++
                        [⟨oid, i.productId, i.quantity, i.price⟩] }).2 = Except.ok db' := by
          rw [hrec]
        obtain ⟨hpos_rest, hdem_rest⟩ := ih hih
        dsimp only at hdem_rest
        have hql : 0 < i.quantity := by omega
        have hle := condDec_le hcd
        have hOn := condDec_onHand hcd
        have hOni : onHandL ps i.productId = onHandL db.products i.productId - i.quantity := by
          have := hOn i.productId
          rwa [if_pos rfl] at this
        refine ⟨?_, ?_⟩
        · intro j hj
          rcases List.mem_cons.mp hj with rfl | hj'
          · exact hql
          · exact hpos_rest j hj'
        · intro j hj
          rcases List.mem_cons.mp hj with rfl | hj'
          · have hs2 : demand (j :: rest) j.productId = j.quantity + demand rest j.productId := by
              rw [demand_cons, if_pos rfl]
            by_cases hex : ∃ j' ∈ rest, j'.productId = j.productId
            · obtain ⟨j', hj'', hpid⟩ := hex
              have hd := hdem_rest j' hj''
              rw [hpid] at hd
              omega
            · push_neg at hex
              have h0 : demand rest j.productId = 0 := demand_eq_zero_of_not_mem hex
              omega
          · have hjr := hdem_rest j hj'
            by_cases hpp : j.productId = i.productId
            · have hs2 : demand (i :: rest) j.productId = i.quantity + demand rest j.productId := by
                rw [demand_cons, if_pos hpp.symm]
              have hone := hOn j.productId
              rw [if_pos hpp] at hone
              omega
            · have hs2 : demand (i :: rest) j.productId = 0 + demand rest j.productId := by
                rw [demand_cons, if_neg (fun hc => hpp hc.symm)]
              have hone := hOn j.productId
              rw [if_neg hpp] at hone
              omega

theorem validateStock_none {db : Db} {items : List CartItem}
    (hpos : ∀ i ∈ items, 0 < i.quantity)
    (hdem : ∀ i ∈ items, demand items i.productId ≤ onHand db i.productId) :
    validateStock db items = none := by
  unfold validateStock
  rw [List.findSome?_eq_none_iff]
  intro i hi
  have h1 : ¬ i.quantity ≤ 0 := not_le.mpr (hpos i hi)
  have h2 : ¬ onHand db i.productId < i.quantity :=
    not_lt.mpr (le_trans (qty_le_demand hpos hi) (hdem i hi))
  simp [validateLine, h1, h2]

theorem orderCreate_success {userId : ℕ} {items : List CartItem} {opts : OrderOptions} {db : Db}
    (hne : items ≠ [])
    (hpos : ∀ i ∈ items, 0 < i.quantity)
    (hdem : ∀ i ∈ items, demand items i.productId ≤ onHand db i.productId) :
    ∃ db', orderCreate userId items opts db =
        .ok (db', ⟨db.nextOrderId, orderFinalTotal items opts, opts.deliveryMethod,
                   opts.deliveryAddress, safeFee opts.deliveryFee⟩) ∧
      (∀ pid, onHand db' pid = onHand db pid - demand items pid) ∧
      db'.orders = db.orders ++
        [⟨db.nextOrderId, userId, orderFinalTotal items opts, opts.deliveryMethod,
          opts.deliveryAddress, safeFee opts.deliveryFee⟩] ∧
      db'.orderItems = db.orderItems ++
        items.map (fun i => OrderItemRow.mk db.nextOrderId i.productId i.quantity i.price) ∧
      db'.users = db.users ∧ db'.walletTxs = db.walletTxs ∧
      db'.payments = db.payments ∧ db'.topups = db.topups ∧
      db'.nextOrderId = db.nextOrderId + 1 := by
  have hie : items.isEmpty = false := by
    cases items with
    | nil => exact absurd rfl hne
    | cons a l => rfl
  obtain ⟨db2, hok, hOn2, hItems2⟩ :=
    @applyItemsT_ok db.nextOrderId items
      { db with
        orders := db.orders ++ [⟨db.nextOrderId, userId, orderFinalTotal items opts,
          opts.deliveryMethod, opts.deliveryAddress, safeFee opts.deliveryFee⟩],
        nextOrderId := db.nextOrderId + 1 }
      hpos hdem
  have hframe := applyItemsT_frame hok
  refine ⟨db2, ?_, ?_, ?_, ?_, ?_, ?_, ?_, ?_, ?_⟩
  · have hstep : orderCreate userId items opts db =
        match (applyItemsT db.nextOrderId items
          { db with
            orders := db.orders ++ [⟨db.nextOrderId, userId, orderFinalTotal items opts,
              opts.deliveryMethod, opts.deliveryAddress, safeFee opts.deliveryFee⟩],
            nextOrderId := db.nextOrderId + 1 }).2 with
        | .error e => .error e
        | .ok db2 => .ok (db2, ⟨db.nextOrderId, orderFinalTotal items opts,
            opts.deliveryMethod, opts.deliveryAddress, safeFee opts.deliveryFee⟩) := by
      simp only [orderCreate, hie, validateStock_none hpos hdem]
      rfl
    rw [hstep, hok]
  · intro pid
    exact hOn2 pid
  · exact hframe.2.2.1
  · exact hItems2
  · exact hframe.1
  · exact hframe.2.1
  · exact hframe.2.2.2.2.1
  · exact hframe.2.2.2.2.2.1
  · exact hframe.2.2.2.1

theorem orderCreate_ok_inv {userId : ℕ} {items : List CartItem} {opts : OrderOptions}
    {db db' : Db} {res : CreateResult}
    (h : orderCreate userId items opts db = .ok (db', res)) :
    (∀ i ∈ items, 0 < i.quantity) ∧
    (∀ i ∈ items, demand items i.productId ≤ onHand db i.productId) := by
  rw [orderCreate] at h
  split at h
  · simp at h
  · split at h
    · simp at h
    · split at h
      · simp at h
      · rename_i db2 hok
        have h2 := applyItemsT_ok_inv hok
        exact h2

/-! Concrete fixtures used by counterexamples and witnesses. -/

/-- A database with no rows and all id counters at 1. -/
def emptyDb : Db := ⟨[], [], [], [], [], [], [], 1, 1, 1⟩

/-- One product, id 1, five units on hand. -/
def dbA : Db := { emptyDb with products := [⟨1, 5⟩] }

/-- A cart naming product 1 twice, three units per line (combined demand 6). -/
def cartDup : List CartItem := [⟨1, "Apple", 3, 10⟩, ⟨1, "Apple", 3, 10⟩]

/-- Example A's cart: two units of product 1 at 10.00 each. -/
def cartA : List CartItem := [⟨1, "Apple", 2, 10⟩]

/-- Example A's delivery options: delivery with the flat 1.50 fee. -/
def optsA : OrderOptions := ⟨"delivery", some "12 Clementi Rd", 3 / 2⟩

/-- C1, counterexample to the claim as stated: in `dbA` (stock 5) every line
of `cartDup` individually requests 3 ≤ 5 units, yet `orderCreate` fails — the
second conditional decrement finds only 2 units left, so the per-line
hypothesis of the claim does not imply success. -/
theorem C1_per_line_hypothesis_fails :
    (cartDup.all fun i => decide (i.quantity ≤ onHand dbA i.productId)) = true ∧
    isErr (orderCreate 7 cartDup ⟨"pickup", none, 0⟩ dbA) = true := ⟨rfl, rfl⟩

/-- C1 (amended): order creation is all-or-nothing with the per-product
*summed* demand as the success criterion: if every cart line's quantity is
positive and, for every product, the summed demand over all its lines is at
most its on-hand stock, `orderCreate` succeeds, stock drops by exactly the
per-product demand, and the Order and OrderItem rows are persisted; if the
criterion fails the call returns an error, and any error outcome leaves the
database unchanged. -/
theorem C1_order_creation_atomicity (userId : ℕ) (items : List CartItem)
    (opts : OrderOptions) (db : Db) (hne : items ≠ []) :
    (((∀ i ∈ items, 0 < i.quantity) ∧
      (∀ i ∈ items, demand items i.productId ≤ onHand db i.productId)) →
      ∃ db' res, orderCreate userId items opts db = .ok (db', res) ∧
        (∀ pid, onHand db' pid = onHand db pid - demand items pid) ∧
        db'.orders = db.orders ++ [⟨db.nextOrderId, userId, res.total, opts.deliveryMethod,
          opts.deliveryAddress, res.deliveryFee⟩] ∧
        db'.orderItems = db.orderItems ++
          items.map (fun i => OrderItemRow.mk db.nextOrderId i.productId i.quantity i.price) ∧
        res.total = orderFinalTotal items opts) ∧
    (¬ ((∀ i ∈ items, 0 < i.quantity) ∧
        (∀ i ∈ items, demand items i.productId ≤ onHand db i.productId)) →
      isErr (orderCreate userId items opts db) = true) ∧
    (∀ e, orderCreate userId items opts db = .error e →
      resultDb db (orderCreate userId items opts db) = db) := by
  refine ⟨?_, ?_, ?_⟩
  · rintro ⟨hpos, hdem⟩
    obtain ⟨db', h1, h2, h3, h4, _⟩ := orderCreate_success hne hpos hdem
    exact ⟨db', ⟨db.nextOrderId, orderFinalTotal items opts, opts.deliveryMethod,
      opts.deliveryAddress, safeFee opts.deliveryFee⟩, h1, h2, h3, h4, rfl⟩
  · intro hncond
    cases hoc : orderCreate userId items opts db with
    | error e => rfl
    | ok p =>
      obtain ⟨db', res⟩ := p
      exact absurd (orderCreate_ok_inv hoc) hncond
  · intro e he
    rw [he]
    rfl

/-- C1, witness: Example A — cart of 2 × 10.00 with fee 1.50 against stock 5
succeeds with total 21.50 and stock 3. -/
theorem C1_order_creation_atomicity_witness :
    ∃ db' res, orderCreate 7 cartA optsA dbA = Except.ok (db', res) ∧
      onHand db' 1 = 3 ∧ res.total = 43 / 2 := by
  obtain ⟨hsucc, -, -⟩ :=
    C1_order_creation_atomicity 7 cartA optsA dbA (by decide)
  obtain ⟨db', res, h1, h2, -, -, h5⟩ := hsucc ⟨by decide, by decide⟩
  refine ⟨db', res, h1, ?_, ?_⟩
  · rw [h2 1]
    decide
  · rw [h5]
    norm_num [orderFinalTotal, itemsSubtotal, cartA, optsA, safeFee, round2, Rat.floor_def']

/-- C2: evaluating the `src/app.js` order-creation path at a duplicate-line
cart (two lines of 3 units, stock 5): the order commits and the committed
stock of product 1 is −1 — the unguarded decrement lets the accepted purchase
drive stock below zero. -/
theorem C2_app_create_drives_stock_negative :
    (okDb (appOrderCreate 7 cartDup ⟨"pickup", none, 0⟩ dbA)).map (fun d => onHand d 1) =
      some (-1) ∧
    (okDb (appOrderCreate 7 cartDup ⟨"pickup", none, 0⟩ dbA)).map (fun d => d.orders.length) =
      some 1 := ⟨rfl, rfl⟩

/-- C3: evaluating the validation loop of `src/models/order.js` at the
duplicate-line cart: validation passes (`none`) although the combined demand
6 exceeds the on-hand stock 5 — cart lines are not deduplicated and their
quantities are not summed before the stock check. -/
theorem C3_validation_does_not_dedup :
    validateStock dbA cartDup = none ∧ demand cartDup 1 = 6 ∧ onHand dbA 1 = 5 :=
  ⟨rfl, rfl, rfl⟩

theorem createWithWallet_trace_shape (userId : ℕ) (items : List CartItem)
    (opts : OrderOptions) (db : Db) (hne : items ≠ []) :
    ∃ b rest, (createWithWallet userId items opts db).1 =
      .lockWallet userId :: .balanceChecked (walletBalanceOf db userId) b :: rest := by
  have hie : items.isEmpty = false := by
    cases items with
    | nil => exact absurd rfl hne
    | cons a l => rfl
  rw [createWithWallet, if_neg (by simp [hie])]
  by_cases hbal : walletBalanceOf db userId < orderFinalTotal items opts
  · rw [if_pos hbal]
    exact ⟨false, [], rfl⟩
  · rw [if_neg hbal]
    split
    · exact ⟨true, _, rfl⟩
    · split
      · exact ⟨true, _, rfl⟩
      · exact ⟨true, _, rfl⟩

/-- C4: in every wallet purchase the wallet row is locked first and the
balance checked second, before any product-row lock; when the balance is
below the computed total the transaction is exactly the two wallet events
followed by the insufficient-funds error, so no stock read or validation, no
order write and no wallet write happens, and the rolled-back database is the
input database. -/
theorem C4_wallet_lock_order_and_balance_gate (userId : ℕ) (items : List CartItem)
    (opts : OrderOptions) (db : Db) (hne : items ≠ []) :
    (∃ b rest, (createWithWallet userId items opts db).1 =
      .lockWallet userId :: .balanceChecked (walletBalanceOf db userId) b :: rest) ∧
    (walletBalanceOf db userId < orderFinalTotal items opts →
      createWithWallet userId items opts db =
        ([.lockWallet userId, .balanceChecked (walletBalanceOf db userId) false],
         .error "Insufficient wallet balance.") ∧
      resultDb db (createWithWallet userId items opts db).2 = db) := by
  have hie : items.isEmpty = false := by
    cases items with
    | nil => exact absurd rfl hne
    | cons a l => rfl
  refine ⟨createWithWallet_trace_shape userId items opts db hne, ?_⟩
  intro hbal
  have heq : createWithWallet userId items opts db =
      ([.lockWallet userId, .balanceChecked (walletBalanceOf db userId) false],
       .error "Insufficient wallet balance.") := by
    rw [createWithWallet, if_neg (by simp [hie]), if_pos hbal]
  exact ⟨heq, by rw [heq]; rfl⟩

/-- Example B's database: shopper 7 with wallet balance 5.00 and one product
with ample stock. -/
def dbB : Db := { emptyDb with users := [⟨7, 5⟩], products := [⟨1, 10⟩] }

/-- Example B's cart: one unit priced 6.00 (total 6.00 > balance 5.00). -/
def cartB : List CartItem := [⟨1, "Apple", 1, 6⟩]

/-- C4, witness: Example B — balance 5.00 against total 6.00 is rejected with
the insufficient-funds error after only the two wallet events, and the
database is unchanged. -/
theorem C4_wallet_lock_order_and_balance_gate_witness :
    createWithWallet 7 cartB ⟨"pickup", none, 0⟩ dbB =
      ([.lockWallet 7, .balanceChecked (walletBalanceOf dbB 7) false],
       .error "Insufficient wallet balance.") ∧
    resultDb dbB (createWithWallet 7 cartB ⟨"pickup", none, 0⟩ dbB).2 = dbB := by
  have h := (C4_wallet_lock_order_and_balance_gate 7 cartB ⟨"pickup", none, 0⟩ dbB
    (by simp [cartB])).2
  exact h (by norm_num [walletBalanceOf, findUser, dbB, emptyDb, orderFinalTotal,
    itemsSubtotal, cartB, safeFee, round2, Rat.floor_def'])

theorem creditWithType_nonpos {uid : ℕ} {amount : ℚ} {t ref : Option String} {db : Db}
    (h : amount ≤ 0) :
    creditWithType uid amount t ref db = .error "Invalid top up amount." := by
  rw [creditWithType, if_pos h]

theorem creditWithType_pos {uid : ℕ} {amount : ℚ} {t ref : Option String} {db : Db}
    (h : 0 < amount) :
    creditWithType uid amount t ref db =
      .ok ({ db with
              users := setBalance db.users uid (round2 (walletBalanceOf db uid + amount)),
              walletTxs := db.walletTxs ++
                [⟨uid, t.getD "topup", amount, round2 (walletBalanceOf db uid + amount), ref⟩] },
           round2 (walletBalanceOf db uid + amount)) := by
  rw [creditWithType, if_neg (not_le.mpr h)]

theorem setBalance_absent {us : List UserRow} {uid : ℕ} (h : findUser us uid = none)
    (b : ℚ) : setBalance us uid b = us := by
  induction us with
  | nil => rfl
  | cons u rest ih =>
    rw [findUser] at h
    by_cases hu : u.id = uid
    · rw [if_pos hu] at h; cases h
    · rw [if_neg hu] at h
      rw [setBalance, if_neg hu, ih h]

/-- A committed wallet purchase, if any, exposed for inspection: the recorded
amount of the last ledger row. -/
def lastTxAmount : Except String (Db × WalletCreateResult) → Option ℚ
  | .ok (d, _) => (d.walletTxs.getLast?).map WalletTxRow.amount
  | .error _ => none

/-- A database for the zero-total purchase: shopper 7 with balance 5 and a
free (price 0) product in stock. -/
def dbF : Db := { emptyDb with users := [⟨7, 5⟩], products := [⟨1, 3⟩] }

/-- A cart holding one unit of the free product — order total 0. -/
def cartF : List CartItem := [⟨1, "Freebie", 1, 0⟩]

theorem createWithWallet_run (userId : ℕ) (items : List CartItem) (opts : OrderOptions)
    (db : Db) (hne : items.isEmpty = false)
    (hbal : ¬ walletBalanceOf db userId < orderFinalTotal items opts)
    (hval : validateStock db items = none)
    (evs : List WEv) (db2 : Db)
    (happ : applyItemsT db.nextOrderId items
      { db with
        orders := db.orders ++ [OrderRow.mk db.nextOrderId userId (orderFinalTotal items opts)
          opts.deliveryMethod opts.deliveryAddress (safeFee opts.deliveryFee)],
        nextOrderId := db.nextOrderId + 1 } = (evs, .ok db2)) :
    createWithWallet userId items opts db =
      ([.lockWallet userId, .balanceChecked (walletBalanceOf db userId) true,
        .lockProducts (pidsOf items), .insertOrder db.nextOrderId] ++ evs ++
        [.walletWrite (round2 (walletBalanceOf db userId - orderFinalTotal items opts)),
         .txInsert ("order:" ++ toString db.nextOrderId)],
       .ok ({ db2 with
              users := setBalance db2.users userId
                (round2 (walletBalanceOf db userId - orderFinalTotal items opts)),
              walletTxs := db2.walletTxs ++
                [⟨userId, "purchase", -(orderFinalTotal items opts),
                  round2 (walletBalanceOf db userId - orderFinalTotal items opts),
                  some ("order:" ++ toString db.nextOrderId)⟩] },
            ⟨db.nextOrderId, orderFinalTotal items opts, opts.deliveryMethod,
              opts.deliveryAddress, safeFee opts.deliveryFee,
              round2 (walletBalanceOf db userId - orderFinalTotal items opts)⟩)) := by
  rw [createWithWallet, if_neg (by simp [hne]), if_neg hbal, hval, happ]

/-- Delivery options with every default (pickup, no address, no fee). -/
def optsP : OrderOptions := ⟨"pickup", none, 0⟩

/-- C8, counterexample to the claim as stated: a wallet purchase of a
zero-priced cart commits (no error), and the recorded amount of the appended
`purchase` ledger row is `-0 = 0`, which is not negative — refuting "records
… a negative amount" for this committed wallet operation. -/
theorem C8_zero_total_purchase_amount_not_negative :
    orderFinalTotal cartF optsP = 0 ∧
    lastTxAmount (createWithWallet 7 cartF optsP dbF).2 = some (-0) ∧
    isErr (createWithWallet 7 cartF optsP dbF).2 = false ∧
    ¬ (-(0 : ℚ)) < 0 := by
  have htot : orderFinalTotal cartF optsP = 0 := by
    norm_num [orderFinalTotal, itemsSubtotal, cartF, optsP, safeFee, round2, Rat.floor_def']
  have hbal : walletBalanceOf dbF 7 = 5 := by
    simp [walletBalanceOf, findUser, dbF, emptyDb]
  have hrun := createWithWallet_run 7 cartF optsP dbF rfl
    (by rw [hbal, htot]; norm_num) rfl _ _ rfl
  refine ⟨htot, ?_, ?_, by norm_num⟩
  · rw [hrun]
    simp only [lastTxAmount, List.getLast?_append]
    rw [htot]
    rfl
  · rw [hrun]
    rfl

/-- C8 (amended): the ledger arithmetic is exact: `creditWithType` rejects
every amount ≤ 0 and otherwise writes `round2 (balance + amount)` and appends
exactly one ledger row whose `balance_after` is that value; a committed
wallet purchase records `balance_after = round2 (balance_before - total)` and
amount `-total` — negative whenever the order total is positive (a zero-total
purchase records 0) — with reference `order:<orderId>`, in the same atomic
step as the order writes. -/
theorem C8_wallet_ledger_arithmetic :
    (∀ (uid : ℕ) (amount : ℚ) (t ref : Option String) (db : Db), amount ≤ 0 →
      creditWithType uid amount t ref db = .error "Invalid top up amount.") ∧
    (∀ (uid : ℕ) (amount : ℚ) (t ref : Option String) (db : Db), 0 < amount →
      creditWithType uid amount t ref db =
        .ok ({ db with
                users := setBalance db.users uid (round2 (walletBalanceOf db uid + amount)),
                walletTxs := db.walletTxs ++
                  [⟨uid, t.getD "topup", amount, round2 (walletBalanceOf db uid + amount), ref⟩] },
             round2 (walletBalanceOf db uid + amount))) ∧
    (∀ (userId : ℕ) (items : List CartItem) (opts : OrderOptions) (db : Db)
       (evs : List WEv) (db' : Db) (res : WalletCreateResult),
      createWithWallet userId items opts db = (evs, .ok (db', res)) →
      res.walletBalance = round2 (walletBalanceOf db userId - res.total) ∧
      db'.walletTxs = db.walletTxs ++
        [⟨userId, "purchase", -res.total, res.walletBalance,
          some ("order:" ++ toString res.orderId)⟩] ∧
      (0 < res.total → -res.total < 0)) := by
  refine ⟨?_, ?_, ?_⟩
  · intro uid amount t ref db h
    exact creditWithType_nonpos h
  · intro uid amount t ref db h
    exact creditWithType_pos h
  · intro userId items opts db evs db' res h
    rw [createWithWallet] at h
    split at h
    · simp at h
    · split at h
      · simp at h
      · split at h
        · simp at h
        · split at h
          · simp at h
          · rename_i evs0 db2 hrec
            rw [Prod.mk.injEq] at h
            obtain ⟨-, h2⟩ := h
            rw [Except.ok.injEq, Prod.mk.injEq] at h2
            obtain ⟨hdb', hres⟩ := h2
            subst hdb'
            subst hres
            have hframe := applyItemsT_frame (by rw [hrec])
            refine ⟨rfl, ?_, fun ht => by linarith⟩
            have hw : db2.walletTxs = db.walletTxs := hframe.2.1
            rw [hw]

/-- C8, witness: crediting user 7 (balance 5) with 5/2 yields the record
update and ledger row with `balance_after = round2 (5 + 5/2)`. -/
theorem C8_wallet_ledger_arithmetic_witness :
    creditWithType 7 (5 / 2) (some "topup") (some "r") dbF =
      .ok ({ dbF with
              users := setBalance dbF.users 7 (round2 (walletBalanceOf dbF 7 + 5 / 2)),
              walletTxs := dbF.walletTxs ++
                [⟨7, "topup", 5 / 2, round2 (walletBalanceOf dbF 7 + 5 / 2), some "r"⟩] },
           round2 (walletBalanceOf dbF 7 + 5 / 2)) :=
  C8_wallet_ledger_arithmetic.2.1 7 (5 / 2) (some "topup") (some "r") dbF (by norm_num)

/-- C10: for a user id with no `users` row the Wallet Ledger does not fail:
`getBalance` reads 0, and a positive credit treats the balance as 0, leaves
the `users` table untouched (the update matches no row), appends one ledger
row with `balance_after = round2 amount`, and reports `round2 amount`. -/
theorem C10_missing_user_wallet (db : Db) (uid : ℕ) (amount : ℚ) (t ref : Option String)
    (habs : findUser db.users uid = none) :
    getBalance db uid = 0 ∧
    (0 < amount →
      creditWithType uid amount t ref db =
        .ok ({ db with walletTxs := db.walletTxs ++
                [⟨uid, t.getD "topup", amount, round2 amount, ref⟩] }, round2 amount)) := by
  have hbal : walletBalanceOf db uid = 0 := by
    unfold walletBalanceOf
    rw [habs]
    rfl
  refine ⟨hbal, fun hpos => ?_⟩
  rw [creditWithType_pos hpos, hbal, zero_add, setBalance_absent habs]

/-- C10, witness: user 9 has no row in `dbF`; the balance reads 0 and a 5/2
credit succeeds, reporting `round2 (5/2)` and leaving `users` unchanged. -/
theorem C10_missing_user_wallet_witness :
    getBalance dbF 9 = 0 ∧
    creditWithType 9 (5 / 2) none (some "r") dbF =
      .ok ({ dbF with walletTxs := dbF.walletTxs ++
              [⟨9, "topup", 5 / 2, round2 (5 / 2), some "r"⟩] }, round2 (5 / 2)) := by
  obtain ⟨h1, h2⟩ := C10_missing_user_wallet dbF 9 (5 / 2) none (some "r") rfl
  exact ⟨h1, h2 (by norm_num)⟩

/-- The refund fixture for a zero-amount paid Payment: shopper 7 committed a
zero-total wallet purchase for order 4 (see the zero-total purchase of C8's
fixture), and the checkout handler recorded
`Payment{provider wallet, status paid, amount 0}` for it. -/
def dbZ : Db := { emptyDb with
  users := [⟨7, 5⟩],
  orders := [⟨4, 7, 0, "pickup", none, 0⟩],
  payments := [⟨1, 4, "wallet", "paid", 0, some "wallet:7"⟩] }

/-- C7, counterexample to the claim as stated: order 4's Payment is `paid`
with amount 0 (reachable: a zero-total wallet purchase commits and the
checkout handler records `amount: Number(result.total || 0) = 0`).  Refunding
it does not credit `payment.amount` and does not mark the Payment refunded:
`creditWithType` rejects the non-positive amount (`Invalid top up amount.`),
the handler answers the credit failure, and the database is unchanged — the
`paid → refunded` transition never happens. -/
theorem C7_zero_amount_paid_refund_never_transitions :
    findPaymentByOrderId dbZ 4 = some ⟨1, 4, "wallet", "paid", 0, some "wallet:7"⟩ ∧
    refundPayment 4 true dbZ = (RefundOutcome.creditFailed, dbZ) := by
  constructor
  · rfl
  · rw [refundPayment,
      show findPaymentByOrderId dbZ 4 = some ⟨1, 4, "wallet", "paid", 0, some "wallet:7"⟩
        from rfl]
    have hnotref : ¬ ("paid" : String) = "refunded" := by decide
    simp only [if_neg hnotref]
    rw [show findOrderById dbZ 4 = some ⟨4, 7, 0, "pickup", none, 0⟩ from rfl]
    have hcred : creditWithType 7 (0 : ℚ) (some "refund")
        (some ("refund:order:" ++ toString (4 : ℕ))) dbZ =
        .error "Invalid top up amount." := creditWithType_nonpos (le_refl 0)
    simp only [hcred]

/-- C7 (amended): the refund workflow is the `paid → refunded` state machine
for payments with a positive amount: no Payment row or an already-refunded
one is rejected with the corresponding outcome and the database untouched; a
paid Payment with positive amount credits the order's owning user exactly
`payment.amount` as a `refund` ledger row with reference
`refund:order:<orderId>` and then marks the Payment refunded; if the credit
committed but the status update fails, the distinct `creditedButMarkFailed`
outcome is surfaced, the credit stands, and the Payment stays unmarked — no
silent retry.  A paid Payment with amount ≤ 0 (a zero-total purchase) fails
the wallet credit and is neither credited nor marked refunded, with the
database unchanged. -/
theorem C7_refund_state_machine :
    (∀ (db : Db) (oid : ℕ) (mk : Bool), findPaymentByOrderId db oid = none →
      refundPayment oid mk db = (.noPayment, db)) ∧
    (∀ (db : Db) (oid : ℕ) (mk : Bool) (p : PaymentRow),
      findPaymentByOrderId db oid = some p → p.status = "refunded" →
      refundPayment oid mk db = (.alreadyRefunded, db)) ∧
    (∀ (db : Db) (oid : ℕ) (mk : Bool) (p : PaymentRow) (o : OrderRow),
      findPaymentByOrderId db oid = some p → p.status = "paid" →
      findOrderById db oid = some o → p.amount ≤ 0 →
      refundPayment oid mk db = (.creditFailed, db)) ∧
    (∀ (db : Db) (oid : ℕ) (p : PaymentRow) (o : OrderRow),
      findPaymentByOrderId db oid = some p → p.status = "paid" →
      findOrderById db oid = some o → 0 < p.amount →
      refundPayment oid true db =
        (.refunded,
         { db with
            users := setBalance db.users o.userId
              (round2 (walletBalanceOf db o.userId + p.amount)),
            walletTxs := db.walletTxs ++
              [⟨o.userId, "refund", p.amount, round2 (walletBalanceOf db o.userId + p.amount),
                some ("refund:order:" ++ toString oid)⟩],
            payments := markRefundedRow db.payments p.id }) ∧
      refundPayment oid false db =
        (.creditedButMarkFailed,
         { db with
            users := setBalance db.users o.userId
              (round2 (walletBalanceOf db o.userId + p.amount)),
            walletTxs := db.walletTxs ++
              [⟨o.userId, "refund", p.amount, round2 (walletBalanceOf db o.userId + p.amount),
                some ("refund:order:" ++ toString oid)⟩] })) := by
  refine ⟨?_, ?_, ?_, ?_⟩
  · intro db oid mk hnone
    rw [refundPayment, hnone]
  · intro db oid mk p hfind href
    rw [refundPayment, hfind]
    simp only [href]
    rfl
  · intro db oid mk p o hfind hpaid horder hamt
    have hnotref : ¬ p.status = "refunded" := by
      rw [hpaid]
      decide
    rw [refundPayment, hfind]
    simp only [if_neg hnotref]
    rw [horder]
    simp only [creditWithType_nonpos hamt]
  · intro db oid p o hfind hpaid horder hamt
    have hnotref : ¬ p.status = "refunded" := by
      rw [hpaid]
      decide
    constructor
    · rw [refundPayment, hfind]
      simp only [if_neg hnotref]
      rw [horder]
      simp only [creditWithType_pos hamt]
      rfl
    · rw [refundPayment, hfind]
      simp only [if_neg hnotref]
      rw [horder]
      simp only [creditWithType_pos hamt]
      rfl

/-- The refund fixture: shopper 7 (balance 5) owns order 4, paid 21.50 by
PayPal; order 9 has no payment. -/
def dbR : Db := { emptyDb with
  users := [⟨7, 5⟩],
  orders := [⟨4, 7, 43 / 2, "pickup", none, 0⟩],
  payments := [⟨1, 4, "paypal", "paid", 43 / 2, some "CAPX"⟩] }

/-- C7, witness: in `dbR` refunding order 4 succeeds when the status update
succeeds and surfaces `creditedButMarkFailed` when it fails; order 9 (no
payment) is rejected with `noPayment` and an unchanged database; and in
`dbZ` the zero-amount paid Payment of order 4 fails the credit with the
database unchanged. -/
theorem C7_refund_state_machine_witness :
    (refundPayment 4 true dbR).1 = RefundOutcome.refunded ∧
    (refundPayment 4 false dbR).1 = RefundOutcome.creditedButMarkFailed ∧
    refundPayment 9 true dbR = (RefundOutcome.noPayment, dbR) ∧
    refundPayment 4 false dbZ = (RefundOutcome.creditFailed, dbZ) := by
  obtain ⟨h1, h2⟩ := C7_refund_state_machine.2.2.2 dbR 4
    ⟨1, 4, "paypal", "paid", 43 / 2, some "CAPX"⟩ ⟨4, 7, 43 / 2, "pickup", none, 0⟩
    rfl rfl rfl (by norm_num)
  refine ⟨by rw [h1], by rw [h2], C7_refund_state_machine.1 dbR 9 true rfl, ?_⟩
  exact C7_refund_state_machine.2.2.1 dbZ 4 false
    ⟨1, 4, "wallet", "paid", 0, some "wallet:7"⟩ ⟨4, 7, 0, "pickup", none, 0⟩
    rfl rfl rfl (by norm_num)

theorem capturePaypalOrder_run_ok (userId : ℕ) (pend : PendingCheckout)
    (cart : List CartItem) (oidp : String) (c : PaypalCaptureData) (pok : Bool) (db : Db)
    (hcart : cart.isEmpty = false) (hst : c.status = "COMPLETED")
    (hmm : capturedAmountMismatch c.capturedAmount
      (calcTotalWithFees cart pend.deliveryFee) = false)
    (db1 : Db) (r : CreateResult)
    (hoc : orderCreate userId cart
      ⟨pend.deliveryMethod, pend.deliveryAddress, pend.deliveryFee⟩ db = .ok (db1, r)) :
    capturePaypalOrder userId ⟨some pend, cart⟩ (some oidp) (.ok c) pok db =
      (.okRedirect "/orders/history",
       if pok then
         { db1 with
            payments := db1.payments ++
              [⟨db1.nextPaymentId, r.orderId, "paypal", "paid",
                calcTotalWithFees cart pend.deliveryFee, c.captureId⟩],
            nextPaymentId := db1.nextPaymentId + 1 }
       else db1) := by
  simp only [capturePaypalOrder, hcart]
  rw [if_neg Bool.false_ne_true, if_neg (by rw [hst]; exact fun hc => hc rfl),
    if_neg (by rw [hmm]; exact Bool.false_ne_true)]
  rw [hoc]
  cases pok <;> rfl

theorem capturePaypalOrder_mismatch (userId : ℕ) (pend : PendingCheckout)
    (cart : List CartItem) (oidp : String) (c : PaypalCaptureData) (pok : Bool) (db : Db)
    (hcart : cart.isEmpty = false) (hst : c.status = "COMPLETED")
    (hmm : capturedAmountMismatch c.capturedAmount
      (calcTotalWithFees cart pend.deliveryFee) = true) :
    capturePaypalOrder userId ⟨some pend, cart⟩ (some oidp) (.ok c) pok db =
      (.badRequest "PayPal amount mismatch.", db) := by
  simp only [capturePaypalOrder, hcart]
  rw [if_neg Bool.false_ne_true, if_neg (by rw [hst]; exact fun hc => hc rfl), if_pos hmm]

theorem capturePaypalOrder_not_completed (userId : ℕ) (pend : PendingCheckout)
    (cart : List CartItem) (oidp : String) (c : PaypalCaptureData) (pok : Bool) (db : Db)
    (hcart : cart.isEmpty = false) (hst : c.status ≠ "COMPLETED") :
    capturePaypalOrder userId ⟨some pend, cart⟩ (some oidp) (.ok c) pok db =
      (.badRequest "PayPal payment not completed.", db) := by
  simp only [capturePaypalOrder, hcart]
  rw [if_neg Bool.false_ne_true, if_pos hst]

theorem confirmStripeOrder_not_succeeded (userId : ℕ) (pend : PendingCheckout)
    (cart : List CartItem) (iid : String) (it : StripeIntent) (pok : Bool) (db : Db)
    (hcart : cart.isEmpty = false) (hst : it.status ≠ "succeeded") :
    confirmStripeOrder userId ⟨some pend, cart⟩ (some iid) (.ok (some it)) pok db =
      (.badRequest "Stripe payment not completed.", db) := by
  simp only [confirmStripeOrder, hcart]
  rw [if_neg Bool.false_ne_true, if_pos hst]

theorem confirmStripeOrder_mismatch (userId : ℕ) (pend : PendingCheckout)
    (cart : List CartItem) (iid : String) (it : StripeIntent) (pok : Bool) (db : Db)
    (hcart : cart.isEmpty = false) (hst : it.status = "succeeded")
    (hmm : it.amountReceived ≠ jsRound (calcTotalWithFees cart pend.deliveryFee * 100)) :
    confirmStripeOrder userId ⟨some pend, cart⟩ (some iid) (.ok (some it)) pok db =
      (.badRequest "Stripe amount mismatch.", db) := by
  simp only [confirmStripeOrder, hcart]
  rw [if_neg Bool.false_ne_true, if_neg (by rw [hst]; exact fun hc => hc rfl), if_pos hmm]

theorem confirmStripeOrder_run_ok (userId : ℕ) (pend : PendingCheckout)
    (cart : List CartItem) (iid : String) (it : StripeIntent) (pok : Bool) (db : Db)
    (hcart : cart.isEmpty = false) (hst : it.status = "succeeded")
    (hmm : it.amountReceived = jsRound (calcTotalWithFees cart pend.deliveryFee * 100))
    (db1 : Db) (r : CreateResult)
    (hoc : orderCreate userId cart
      ⟨pend.deliveryMethod, pend.deliveryAddress, pend.deliveryFee⟩ db = .ok (db1, r)) :
    confirmStripeOrder userId ⟨some pend, cart⟩ (some iid) (.ok (some it)) pok db =
      (.okRedirect "/orders/history",
       if pok then
         { db1 with
            payments := db1.payments ++
              [⟨db1.nextPaymentId, r.orderId, "stripe", "paid",
                calcTotalWithFees cart pend.deliveryFee, some iid⟩],
            nextPaymentId := db1.nextPaymentId + 1 }
       else db1) := by
  simp only [confirmStripeOrder, hcart]
  rw [if_neg Bool.false_ne_true, if_neg (by rw [hst]; exact fun hc => hc rfl),
    if_neg (by rw [hmm]; exact fun hc => hc rfl)]
  rw [hoc]
  cases pok <;> rfl

/-- The pending checkout context shared by the settlement fixtures: delivery
with the 1.50 fee. -/
def pendC : PendingCheckout := ⟨"delivery", some "12 Clementi Rd", 3 / 2⟩

/-- A checkout session holding Example A's cart (expected total 21.50). -/
def sessC : CheckoutSession := ⟨some pendC, cartA⟩

/-- A database that already holds a Payment row with provider reference
`CAP1` (an earlier settlement of the same capture). -/
def dbC : Db := { emptyDb with
  products := [⟨1, 5⟩],
  payments := [⟨1, 9, "paypal", "paid", 43 / 2, some "CAP1"⟩],
  nextPaymentId := 2 }

/-- A completed PayPal capture reusing reference `CAP1` with the matching
amount 21.50. -/
def capC : PaypalCaptureData := ⟨"COMPLETED", some "CAP1", some (43 / 2)⟩

/-- C5, counterexample to the claim as stated: replaying a confirmation whose
capture id `CAP1` already produced a Payment row (session context restored,
as after a duplicate client confirm) succeeds and inserts a second Payment
row with the same provider reference — order-payment settlement performs no
reference check. -/
theorem C5_duplicate_payment_row_created :
    (capturePaypalOrder 7 sessC (some "PPO") (.ok capC) true dbC).1 =
      PayResp.okRedirect "/orders/history" ∧
    ((capturePaypalOrder 7 sessC (some "PPO") (.ok capC) true dbC).2.payments.filter
      (fun p => p.providerRef == some "CAP1")).length = 2 := by
  have hcalc : calcTotalWithFees cartA pendC.deliveryFee = 43 / 2 := by
    norm_num [calcTotalWithFees, itemsSubtotal, cartA, pendC, round2, Rat.floor_def']
  have hmm : capturedAmountMismatch capC.capturedAmount
      (calcTotalWithFees cartA pendC.deliveryFee) = false := by
    rw [hcalc]
    simp [capturedAmountMismatch, capC]
  obtain ⟨db1, h1, -, -, -, -, -, hPay, -, -⟩ :=
    @orderCreate_success 7 cartA
      ⟨pendC.deliveryMethod, pendC.deliveryAddress, pendC.deliveryFee⟩
      dbC (by decide) (by decide) (by decide)
  have hrun := capturePaypalOrder_run_ok 7 pendC cartA "PPO" capC true dbC rfl rfl hmm db1 _ h1
  rw [if_pos rfl] at hrun
  rw [show sessC = ⟨some pendC, cartA⟩ from rfl, hrun]
  refine ⟨rfl, ?_⟩
  dsimp only
  rw [List.filter_append, hPay]
  rfl

/-- C5 (amended): idempotency by provider reference holds for wallet top-ups:
a completed PayPal top-up capture whose capture id already appears in
`wallet_topups` is a no-op answering the success redirect with the database
unchanged — no credit, no ledger row, no duplicate top-up row.  (Order-payment
settlement has no such check; its only replay protection is the session
clearing, see the counterexample.) -/
theorem C5_topup_settlement_idempotent (uid : ℕ) (oidp : String) (c : PaypalCaptureData)
    (db : Db) (cid : String) (a : ℚ) (t : TopupRow)
    (hst : c.status = "COMPLETED") (hcid : c.captureId = some cid)
    (hamt : c.capturedAmount = some a) (hdup : findTopupByRef db.topups cid = some t) :
    capturePaypalTopup uid (some oidp) (.ok c) db = (.okRedirect "/wallet", db) := by
  simp only [capturePaypalTopup]
  rw [if_neg (by rw [hst]; exact fun hc => hc rfl)]
  simp only [hcid, hamt, hdup]

/-- A database whose `wallet_topups` already records the capture `CAP9`. -/
def dbT : Db := { emptyDb with
  topups := [⟨1, 7, "paypal", 30, "completed", some "CAP9"⟩], nextTopupId := 2 }

/-- A completed PayPal top-up capture reusing reference `CAP9`. -/
def capT : PaypalCaptureData := ⟨"COMPLETED", some "CAP9", some 30⟩

/-- C5, witness: retrying the `CAP9` top-up confirmation against `dbT`
returns the success redirect and leaves the database exactly unchanged. -/
theorem C5_topup_settlement_idempotent_witness :
    capturePaypalTopup 7 (some "PPO") (.ok capT) dbT = (.okRedirect "/wallet", dbT) :=
  C5_topup_settlement_idempotent 7 "PPO" capT dbT "CAP9" 30
    ⟨1, 7, "paypal", 30, "completed", some "CAP9"⟩ rfl rfl rfl rfl

/-- C6 (amended): synchronous capture settlement verifies before settling:
a non-success provider status, or a reported amount different from the
server-recomputed total (exact two-decimal equality; cents equality for
Stripe), aborts with an HTTP 400 and an unchanged database — no Order and no
Payment; on terminal success with a matching amount the order is created and
the Payment row inserted when its insert succeeds — but the Payment insert
runs after the order transaction and its failure is only logged (`pok =
false`), leaving the created Order without a Payment row; for PayPal a
response carrying no amount skips the comparison entirely
(`capturedAmountMismatch none e = false`). -/
theorem C6_capture_verifies_before_settling :
    (∀ (uid : ℕ) (pend : PendingCheckout) (cart : List CartItem) (oidp : String)
       (c : PaypalCaptureData) (pok : Bool) (db : Db) ( _hc : cart.isEmpty = false),
       c.status ≠ "COMPLETED" →
       capturePaypalOrder uid ⟨some pend, cart⟩ (some oidp) (.ok c) pok db =
         (.badRequest "PayPal payment not completed.", db)) ∧
    (∀ (uid : ℕ) (pend : PendingCheckout) (cart : List CartItem) (oidp : String)
       (c : PaypalCaptureData) (pok : Bool) (db : Db) ( _hc : cart.isEmpty = false)
       (a : ℚ), c.status = "COMPLETED" → c.capturedAmount = some a →
       a ≠ calcTotalWithFees cart pend.deliveryFee →
       capturePaypalOrder uid ⟨some pend, cart⟩ (some oidp) (.ok c) pok db =
         (.badRequest "PayPal amount mismatch.", db)) ∧
    (∀ (uid : ℕ) (pend : PendingCheckout) (cart : List CartItem) (iid : String)
       (it : StripeIntent) (pok : Bool) (db : Db) ( _hc : cart.isEmpty = false),
       it.status ≠ "succeeded" →
       confirmStripeOrder uid ⟨some pend, cart⟩ (some iid) (.ok (some it)) pok db =
         (.badRequest "Stripe payment not completed.", db)) ∧
    (∀ (uid : ℕ) (pend : PendingCheckout) (cart : List CartItem) (iid : String)
       (it : StripeIntent) (pok : Bool) (db : Db) ( _hc : cart.isEmpty = false),
       it.status = "succeeded" →
       it.amountReceived ≠ jsRound (calcTotalWithFees cart pend.deliveryFee * 100) →
       confirmStripeOrder uid ⟨some pend, cart⟩ (some iid) (.ok (some it)) pok db =
         (.badRequest "Stripe amount mismatch.", db)) ∧
    (∀ (uid : ℕ) (pend : PendingCheckout) (cart : List CartItem) (oidp : String)
       (c : PaypalCaptureData) (pok : Bool) (db : Db) (db1 : Db) (r : CreateResult)
       ( _hc : cart.isEmpty = false), c.status = "COMPLETED" →
       capturedAmountMismatch c.capturedAmount
         (calcTotalWithFees cart pend.deliveryFee) = false →
       orderCreate uid cart ⟨pend.deliveryMethod, pend.deliveryAddress, pend.deliveryFee⟩ db =
         .ok (db1, r) →
       capturePaypalOrder uid ⟨some pend, cart⟩ (some oidp) (.ok c) pok db =
         (.okRedirect "/orders/history",
          if pok then
            { db1 with
               payments := db1.payments ++
                 [⟨db1.nextPaymentId, r.orderId, "paypal", "paid",
                   calcTotalWithFees cart pend.deliveryFee, c.captureId⟩],
               nextPaymentId := db1.nextPaymentId + 1 }
          else db1)) := by
  refine ⟨?_, ?_, ?_, ?_, ?_⟩
  · intro uid pend cart oidp c pok db hc hst
    exact capturePaypalOrder_not_completed uid pend cart oidp c pok db hc hst
  · intro uid pend cart oidp c pok db hc a hst hamt hne
    refine capturePaypalOrder_mismatch uid pend cart oidp c pok db hc hst ?_
    rw [hamt]
    simp [capturedAmountMismatch, bne_iff_ne, hne]
  · intro uid pend cart iid it pok db hc hst
    exact confirmStripeOrder_not_succeeded uid pend cart iid it pok db hc hst
  · intro uid pend cart iid it pok db hc hst hne
    exact confirmStripeOrder_mismatch uid pend cart iid it pok db hc hst hne
  · intro uid pend cart oidp c pok db db1 r hc hst hmm hoc
    exact capturePaypalOrder_run_ok uid pend cart oidp c pok db hc hst hmm db1 r hoc

/-- A database with only a product in stock — no orders, no payments. -/
def dbC6 : Db := { emptyDb with products := [⟨1, 5⟩] }

/-- C6, counterexample to the claim as stated: a completed, amount-matching
PayPal capture whose Payment insert fails (`pok = false`) still answers
success and persists the Order — an Order without its Payment row, a third
outcome besides "Order+Payment" and "no mutation". -/
theorem C6_order_without_payment_row :
    (capturePaypalOrder 7 sessC (some "PPO") (.ok capC) false dbC6).1 =
      PayResp.okRedirect "/orders/history" ∧
    (capturePaypalOrder 7 sessC (some "PPO") (.ok capC) false dbC6).2.payments = [] ∧
    (capturePaypalOrder 7 sessC (some "PPO") (.ok capC) false dbC6).2.orders.length = 1 := by
  have hcalc : calcTotalWithFees cartA pendC.deliveryFee = 43 / 2 := by
    norm_num [calcTotalWithFees, itemsSubtotal, cartA, pendC, round2, Rat.floor_def']
  have hmm : capturedAmountMismatch capC.capturedAmount
      (calcTotalWithFees cartA pendC.deliveryFee) = false := by
    rw [hcalc]
    simp [capturedAmountMismatch, capC]
  obtain ⟨db1, h1, -, hOrders, -, -, -, hPay, -, -⟩ :=
    @orderCreate_success 7 cartA
      ⟨pendC.deliveryMethod, pendC.deliveryAddress, pendC.deliveryFee⟩
      dbC6 (by decide) (by decide) (by decide)
  have hrun := capturePaypalOrder_run_ok 7 pendC cartA "PPO" capC false dbC6 rfl rfl hmm db1 _ h1
  rw [if_neg Bool.false_ne_true] at hrun
  rw [show sessC = ⟨some pendC, cartA⟩ from rfl, hrun]
  refine ⟨rfl, ?_, ?_⟩
  · dsimp only
    rw [hPay]
    rfl
  · dsimp only
    rw [hOrders]
    rfl

/-- A mismatching capture for Example C: provider reports 19.99 while the
expected total is 21.50. -/
def capMis : PaypalCaptureData := ⟨"COMPLETED", some "CAPZ", some (1999 / 100)⟩

/-- C6, witness: Example C — reported 19.99 against expected 21.50 is
rejected with the amount-mismatch error and the database unchanged. -/
theorem C6_capture_verifies_before_settling_witness :
    capturePaypalOrder 7 sessC (some "PPO") (.ok capMis) true dbC6 =
      (PayResp.badRequest "PayPal amount mismatch.", dbC6) := by
  have hcalc : calcTotalWithFees cartA pendC.deliveryFee = 43 / 2 := by
    norm_num [calcTotalWithFees, itemsSubtotal, cartA, pendC, round2, Rat.floor_def']
  have h := C6_capture_verifies_before_settling.2.1 7 pendC cartA "PPO" capMis true dbC6
    rfl (1999 / 100) rfl rfl (by rw [hcalc]; norm_num)
  exact h

/-- A provider that answers every status poll with a well-formed pending
response (`response_code` ≠ "00"), regardless of the flag sent. -/
def netsPendingOracle : ℕ → ℤ → Except String NetsResp := fun _ _ => .ok ⟨"09", 0⟩

/-- C9: evaluating the NETS status stream against a provider that never
reports success: the stream makes exactly `netsMaxPolls` = 60 provider
queries, every one carrying `frontend_timeout_status = 0` — the timeout flag
is never forwarded, because `clearInterval` runs before the flag is set, so
the flag-1 failure branch can never execute — and then emits a single
terminal timeout event with the timer cleared.  The poll period constant is
5000 ms. -/
theorem C9_timeout_flag_never_sent :
    netsIntervalMs = 5000 ∧ netsMaxPolls = 60 ∧
    (runNetsStream netsPendingOracle).flagsSent = List.replicate 60 0 ∧
    (runNetsStream netsPendingOracle).events.getLast? = some NetsStreamEvent.timeoutEv ∧
    ((runNetsStream netsPendingOracle).events.filter isNetsTerminal).length = 1 ∧
    (runNetsStream netsPendingOracle).timerCleared = true :=
  ⟨rfl, rfl, rfl, rfl, rfl, rfl⟩

end Supermarket
